import Mathlib

/-!
Shallow embedding of the Veo chat application.

Source files embedded:
* `services/geminiService.ts` (src/unnamed/part_002): `GeminiService.generateVideo`,
  the long-running-operation client: submit, poll every 5000 ms, terminal error
  handling, authenticated binary download, blob-URL result.
* `App.tsx` (src/unnamed/part_001): `handleSendMessage`, the message store updates
  and the API-key reset on credential-pattern errors.
* `types.ts`: `Message`, `GenerationRequest`, `GenerationConfig`.

Vendor interaction is modelled as an oracle environment: the initial operation
handle returned by `generateVideos`, the list of successive responses of
`operations.getVideosOperation` (the k-th list element is the response to the
k-th status call), and a function giving the HTTP response of `fetch` on each URL.
JavaScript `undefined` optional fields become `Option`; JavaScript string
truthiness (empty string is falsy) is modelled explicitly where the source
relies on it.
-/

/-- JS substring test on character lists: does the second list start with the first? -/
def listStartsWith : List Char → List Char → Bool
  | [], _ => true
  | _ :: _, [] => false
  | p :: ps, c :: cs => p == c && listStartsWith ps cs

/-- Does `pat` occur as a contiguous substring of the second list? -/
def listHasSubstr (pat : List Char) : List Char → Bool
  | [] => listStartsWith pat []
  | c :: cs => listStartsWith pat (c :: cs) || listHasSubstr pat cs

/-- Model of JavaScript `s.includes(pat)` (substring containment). -/
def strIncludes (s pat : String) : Bool :=
  listHasSubstr pat.data s.data

/-! ## Data model of the vendor protocol (shapes used by generateVideo) -/

/-- `operation.error`: the vendor error payload carried by an operation handle;
`message` is optional (JS `undefined` is `none`). -/
structure OperationError where
  message : Option String
deriving Repr, DecidableEq

/-- `generatedVideos[i].video`: the remote video reference; `uri` optional. -/
structure VideoRef where
  uri : Option String
deriving Repr, DecidableEq

/-- One element of `operation.response.generatedVideos`. -/
structure GeneratedVideo where
  video : Option VideoRef
deriving Repr, DecidableEq

/-- `operation.response`: payload of a completed operation. -/
structure OperationResponse where
  generatedVideos : Option (List GeneratedVideo)
deriving Repr, DecidableEq

/-- The vendor operation handle: completion flag, optional error, optional payload. -/
structure Operation where
  done : Bool
  error : Option OperationError
  response : Option OperationResponse
deriving Repr, DecidableEq

/-- `operation.error.message || "Unknown error during video generation"`:
JS `||` falls through on `undefined` and on the empty string. -/
def errText (e : OperationError) : String :=
  match e.message with
  | some m => if m = "" then "Unknown error during video generation" else m
  | none => "Unknown error during video generation"

/-! ## Failure kinds

Each constructor corresponds to a family of `throw new Error(...)` sites in
`generateVideo`, carrying the thrown message string:
* `authError`: "API Key not found. Please select a key." (missing credential);
* `remoteOperationError`: the two `operation.error` throw sites;
* `missingPayloadError`: "No video returned from the API." / "Video URI is missing.";
* `networkError`: "Failed to download video: ..." on a non-ok fetch response. -/
inductive GenFailure where
  | authError (msg : String)
  | remoteOperationError (msg : String)
  | missingPayloadError (msg : String)
  | networkError (msg : String)
deriving Repr, DecidableEq

/-- The message string carried by a failure (what `error.message` is in the caller). -/
def failureMessage : GenFailure → String
  | .authError m => m
  | .remoteOperationError m => m
  | .missingPayloadError m => m
  | .networkError m => m

/-! ## The poll loop

`while (!operation.done) { await wait(5000); operation = await getVideosOperation(...);
  if (operation.error) throw ... }`
`rs` is the oracle trace of status-call responses; `none` means the trace was
exhausted with the loop still running (the real loop would keep polling). -/

def pollLoop (op : Operation) (rs : List Operation) : Option (Except GenFailure Operation) :=
  if op.done then some (Except.ok op)
  else
    match rs with
    | [] => none
    | r :: rest =>
      match r.error with
      | some e => some (Except.error (GenFailure.remoteOperationError (errText e)))
      | none => pollLoop r rest

/-- Number of `getVideosOperation` calls the loop issues on this trace. -/
def statusCallCount (op : Operation) (rs : List Operation) : Nat :=
  if op.done then 0
  else
    match rs with
    | [] => 0
    | r :: rest =>
      match r.error with
      | some _ => 1
      | none => 1 + statusCallCount r rest

/-- Observable events of the poll loop: the 5000 ms suspension and each status
call, recording the operation handle passed as its argument. -/
inductive PollEvent where
  | wait (ms : Nat)
  | statusCall (arg : Operation)
deriving Repr, DecidableEq

/-- Event trace of the poll loop on the given handle and response oracle. -/
def pollEvents (op : Operation) (rs : List Operation) : List PollEvent :=
  if op.done then []
  else
    match rs with
    | [] => []
    | r :: rest =>
      match r.error with
      | some _ => [PollEvent.wait 5000, PollEvent.statusCall op]
      | none => PollEvent.wait 5000 :: PollEvent.statusCall op :: pollEvents r rest

/-! ## Request and payload composition -/

/-- `'16:9' | '9:16'` from types.ts. -/
inductive AspectChoice where
  | landscape16x9
  | portrait9x16
deriving Repr, DecidableEq

/-- `'720p' | '1080p'` from types.ts. -/
inductive ResolutionChoice where
  | p720
  | p1080
deriving Repr, DecidableEq

/-- `GenerationConfig` from types.ts: aspect ratio and resolution. -/
structure GenerationConfig where
  aspect : AspectChoice
  resolution : ResolutionChoice
deriving Repr, DecidableEq

/-- The optional image attachment of a request: base64 data and MIME type. -/
structure ImageInput where
  data : String
  mimeType : String
deriving Repr, DecidableEq

/-- `GenerationRequest` from types.ts. -/
structure GenerationRequest where
  prompt : String
  image : Option ImageInput
  config : GenerationConfig
deriving Repr, DecidableEq

/-- The `config` object passed to `generateVideos`. -/
structure GenerateVideosConfig where
  numberOfVideos : Nat
  resolution : ResolutionChoice
  aspect : AspectChoice
deriving Repr, DecidableEq

/-- The image member of the vendor payload (`imageBytes` + `mimeType`). -/
structure ImagePayload where
  imageBytes : String
  mimeType : String
deriving Repr, DecidableEq

/-- The argument object of the `generateVideos` call. The `image` field uses two
`Option` layers to keep the JS distinction observable: outer `none` = the field
is absent from the object literal, `some none` = present with a null value,
`some (some p)` = present with value `p`. -/
structure VendorPayload where
  model : String
  prompt : String
  image : Option (Option ImagePayload)
  config : GenerateVideosConfig
deriving Repr, DecidableEq

/-- The two `generateVideos` call sites of `generateVideo`: with an image
attachment the payload carries an `image` member; without one the field is
omitted from the object literal; all other members are the same expressions. -/
def composePayload (request : GenerationRequest) : VendorPayload :=
  match request.image with
  | some img =>
    { model := "veo-3.1-fast-generate-preview"
      prompt := request.prompt
      image := some (some { imageBytes := img.data, mimeType := img.mimeType })
      config := { numberOfVideos := 1, resolution := request.config.resolution,
                  aspect := request.config.aspect } }
  | none =>
    { model := "veo-3.1-fast-generate-preview"
      prompt := request.prompt
      image := none
      config := { numberOfVideos := 1, resolution := request.config.resolution,
                  aspect := request.config.aspect } }

/-! ## Download URL and the full client -/

/-- `videoUri.includes('?') ? uri&key=... : uri?key=...`. -/
def mkDownloadUrl (uri key : String) : String :=
  if strIncludes uri "?" then uri ++ "&key=" ++ key else uri ++ "?key=" ++ key

/-- Result of a `fetch` on the download URL: `ok`, `statusText`, and the blob
object URL that `URL.createObjectURL` yields for the downloaded body. -/
structure FetchResponse where
  ok : Bool
  statusText : String
  objectUrl : String
deriving Repr, DecidableEq

/-- Oracle environment of one `generateVideo` call: the configured API key
(`process.env.API_KEY`), the handle returned by the `generateVideos` submission,
the trace of status-call responses, and the HTTP layer. -/
structure Env where
  apiKey : Option String
  generate : VendorPayload → Operation
  pollResponses : List Operation
  fetchResponse : String → FetchResponse

/-- The straight-line code after the poll loop: the post-loop `operation.error`
check, payload extraction (`response?.generatedVideos`, emptiness check, first
result, `video?.uri` with JS falsiness), download-URL construction, fetch and
blob wrapping. -/
def afterPoll (key : String) (fetchResponse : String → FetchResponse) (op : Operation) :
    Except GenFailure String :=
  match op.error with
  | some e => Except.error (GenFailure.remoteOperationError (errText e))
  | none =>
    match op.response with
    | none => Except.error (GenFailure.missingPayloadError "No video returned from the API.")
    | some resp =>
      match resp.generatedVideos with
      | none => Except.error (GenFailure.missingPayloadError "No video returned from the API.")
      | some [] => Except.error (GenFailure.missingPayloadError "No video returned from the API.")
      | some (gv :: _) =>
        match gv.video with
        | none => Except.error (GenFailure.missingPayloadError "Video URI is missing.")
        | some v =>
          match v.uri with
          | none => Except.error (GenFailure.missingPayloadError "Video URI is missing.")
          | some uri =>
            if uri = "" then
              Except.error (GenFailure.missingPayloadError "Video URI is missing.")
            else
              let r := fetchResponse (mkDownloadUrl uri key)
              if r.ok then Except.ok r.objectUrl
              else Except.error (GenFailure.networkError ("Failed to download video: " ++ r.statusText))

/-- `GeminiService.generateVideo`: credential check (`ensureInitialized` throws
when `process.env.API_KEY` is unset; with a key set it always re-creates the
client, so the subsequent null check cannot fire), submission, poll loop, then
`afterPoll`. `none` means the poll trace ended before the operation finished. -/
def generateVideo (env : Env) (request : GenerationRequest) :
    Option (Except GenFailure String) :=
  match env.apiKey with
  | none => some (Except.error (GenFailure.authError "API Key not found. Please select a key."))
  | some key =>
    match pollLoop (env.generate (composePayload request)) env.pollResponses with
    | none => none
    | some (Except.error e) => some (Except.error e)
    | some (Except.ok op) => some (afterPoll key env.fetchResponse op)

/-! ## App state (App.tsx): the message store and handleSendMessage -/

/-- `'user' | 'agent'` from types.ts. -/
inductive Role where
  | user
  | agent
deriving Repr, DecidableEq

/-- `'pending' | 'generating' | 'complete' | 'error'` from types.ts. -/
inductive Status where
  | pending
  | generating
  | complete
  | error
deriving Repr, DecidableEq

/-- `Message` from types.ts; optional fields are `Option` (`none` = absent). -/
structure Message where
  id : String
  role : Role
  text : Option String
  image : Option String
  videoUrl : Option String
  status : Option Status
  error : Option String
  timestamp : Nat
deriving Repr, DecidableEq

/-- The welcome message seeded into the store on mount (its timestamp is the
mount-time `Date.now()`, irrelevant to every property and fixed at 0 here). -/
def welcomeMessage : Message :=
  { id := "welcome"
    role := Role.agent
    text := some "Hello! I'm your Veo video director. I can turn your text descriptions and images into stunning videos.\n\nTry describing a scene like \"A futuristic cyberpunk city with neon lights raining\" or upload an image to animate it!"
    image := none
    videoUrl := none
    status := none
    error := none
    timestamp := 0 }

/-- The App component state touched by handleSendMessage. -/
structure AppState where
  messages : List Message
  apiKeySet : Bool
  isProcessing : Bool
deriving Repr, DecidableEq

/-- The state on mount: the welcome message, no key selected, idle. -/
def initialState : AppState :=
  { messages := [welcomeMessage], apiKeySet := false, isProcessing := false }

/-- The user message appended on submission. `image: imageBase64 || undefined`:
JS `||` turns both `null` and the empty string into `undefined`. `now` models
`Date.now()` at submission time. -/
def mkUserMessage (now : Nat) (text : String) (imageBase64 : Option String) : Message :=
  { id := toString now
    role := Role.user
    text := some text
    image := match imageBase64 with
             | some s => if s = "" then none else some s
             | none => none
    videoUrl := none
    status := none
    error := none
    timestamp := now }

/-- The agent placeholder appended on submission: id `(Date.now() + 1).toString()`,
status `generating`, no other content. -/
def mkAgentMessage (now : Nat) : Message :=
  { id := toString (now + 1)
    role := Role.agent
    text := none
    image := none
    videoUrl := none
    status := some Status.generating
    error := none
    timestamp := now }

/-- The success resolution: `prev.map` replacing the message whose id is the
agent placeholder id with status `complete`, the fixed success text, and the
blob URL; every other element is returned as is. -/
def resolveComplete (agentId url : String) (msgs : List Message) : List Message :=
  msgs.map fun m =>
    if m.id = agentId then
      { m with status := some Status.complete
               text := some "Here is your generated video!"
               videoUrl := some url }
    else m

/-- `error.message || "Something went wrong while generating the video."`
(JS `||`: empty message falls through to the default). -/
def displayedError (s : String) : String :=
  if s = "" then "Something went wrong while generating the video." else s

/-- The failure resolution: `prev.map` replacing the message whose id is the
agent placeholder id with status `error` and the displayed error text. -/
def resolveError (agentId emsg : String) (msgs : List Message) : List Message :=
  msgs.map fun m =>
    if m.id = agentId then
      { m with status := some Status.error, error := some (displayedError emsg) }
    else m

/-- The credential-reset test of the catch block:
`error.message && (error.message.includes("Requested entity was not found")
 || error.message.includes("API key not valid"))`;
string truthiness makes an empty message fail the test. -/
def shouldResetKey (s : String) : Bool :=
  (s != "") && (strIncludes s "Requested entity was not found" || strIncludes s "API key not valid")

/-- `handleSendMessage` as a state transformer. `outcome` is the settled result
of the awaited `generateVideo` call. With no key set the handler returns at
once; otherwise it appends the user message and the generating agent
placeholder, then — depending on the outcome — rewrites the placeholder to
`complete` (with the video URL) or to `error` (with the message, resetting
`apiKeySet` when the message matches a credential pattern), and finally clears
`isProcessing`. -/
def handleSendMessage (st : AppState) (now : Nat) (text : String)
    (imageBase64 : Option String) (outcome : Except GenFailure String) : AppState :=
  if st.apiKeySet = false then st
  else
    let agentId := toString (now + 1)
    let msgs1 := st.messages ++ [mkUserMessage now text imageBase64, mkAgentMessage now]
    match outcome with
    | Except.ok url =>
      { messages := resolveComplete agentId url msgs1
        apiKeySet := st.apiKeySet
        isProcessing := false }
    | Except.error e =>
      { messages := resolveError agentId (failureMessage e) msgs1
        apiKeySet := if shouldResetKey (failureMessage e) then false else st.apiKeySet
        isProcessing := false }

/-! ## Session steps

React applies the two `setMessages` functional updates of one submission
separately, so a session is a sequence of these atomic store updates: the
append on submission, a resolution (success or failure), and the `apiKeySet`
writes of the key-bootstrap handlers. -/

/-- One atomic update of the App state during a session. -/
inductive Step : AppState → AppState → Prop
  | submit (now : Nat) (text : String) (imageBase64 : Option String) (st : AppState) :
      st.apiKeySet = true →
      Step st { st with
                messages := st.messages ++ [mkUserMessage now text imageBase64, mkAgentMessage now]
                isProcessing := true }
  | resolveOk (agentId url : String) (st : AppState) :
      Step st { st with messages := resolveComplete agentId url st.messages
                        isProcessing := false }
  | resolveErr (agentId emsg : String) (st : AppState) :
      Step st { st with
                messages := resolveError agentId emsg st.messages
                apiKeySet := if shouldResetKey emsg then false else st.apiKeySet
                isProcessing := false }
  | setKey (b : Bool) (st : AppState) :
      Step st { st with apiKeySet := b }

/-- States a session can reach from the mount state. -/
inductive Reachable : AppState → Prop
  | init : Reachable initialState
  | step {s s' : AppState} : Reachable s → Step s s' → Reachable s'

deriving instance DecidableEq for Except

/-! ## Sample values used by the concrete witnesses -/

/-- 16:9 at 720p, the defaults of the input component. -/
def sampleConfig : GenerationConfig :=
  { aspect := AspectChoice.landscape16x9, resolution := ResolutionChoice.p720 }

/-- The end-to-end scenario request of the spec: prompt only, no image. -/
def sampleRequestNoImage : GenerationRequest :=
  { prompt := "a calm lake at sunset", image := none, config := sampleConfig }

/-- A request carrying an image attachment. -/
def sampleRequestWithImage : GenerationRequest :=
  { prompt := "animate this image"
    image := some { data := "QUJD", mimeType := "image/png" }
    config := sampleConfig }

/-- An operation handle still in flight. -/
def opPending : Operation := { done := false, error := none, response := none }

/-- A completed operation with one generated video. -/
def opDone1 : Operation :=
  { done := true
    error := none
    response := some { generatedVideos := some [{ video := some { uri := some "https://v.example/file" } }] } }

/-- A failed status response. -/
def opErr : Operation :=
  { done := false, error := some { message := some "boom" }, response := none }

/-- A completed operation whose result list is empty. -/
def opDoneEmpty : Operation :=
  { done := true, error := none, response := some { generatedVideos := some [] } }

/-- An HTTP layer that always succeeds and yields a fixed blob URL. -/
def sampleFetchResponse : String → FetchResponse :=
  fun _ => { ok := true, statusText := "OK", objectUrl := "blob:abc" }

/-- The spec's end-to-end environment: submission yields a pending handle, the
first poll is still pending, the second completes with one result. -/
def envHappy : Env :=
  { apiKey := some "KEY"
    generate := fun _ => opPending
    pollResponses := [opPending, opDone1]
    fetchResponse := sampleFetchResponse }

/-- An environment whose operation completes with an empty result list. -/
def envEmptyPayload : Env :=
  { apiKey := some "KEY"
    generate := fun _ => opDoneEmpty
    pollResponses := []
    fetchResponse := sampleFetchResponse }

/-- The mount state after the key bootstrap succeeded. -/
def readyState : AppState := { initialState with apiKeySet := true }

/-! ## Helper lemmas -/

/-- The poll loop hands an operation to the rest of the function only once its
completion flag is set. -/
theorem pollLoop_ok_done (op : Operation) (rs : List Operation) (o : Operation)
    (h : pollLoop op rs = some (Except.ok o)) : o.done = true := by
  induction rs generalizing op with
  | nil =>
    by_cases hd : op.done = true
    · simp [pollLoop, hd] at h
      subst h; exact hd
    · simp [pollLoop, hd] at h
  | cons r rest ih =>
    by_cases hd : op.done = true
    · simp [pollLoop, hd] at h
      subst h; exact hd
    · cases he : r.error with
      | some e => simp [pollLoop, hd, he] at h
      | none =>
        simp [pollLoop, hd, he] at h
        exact ih r h

/-- Every failure the poll loop itself produces is a vendor-reported operation
error. -/
theorem pollLoop_error_shape (op : Operation) (rs : List Operation) (e : GenFailure)
    (h : pollLoop op rs = some (Except.error e)) :
    ∃ m, e = GenFailure.remoteOperationError m := by
  induction rs generalizing op with
  | nil =>
    by_cases hd : op.done = true <;> simp [pollLoop, hd] at h
  | cons r rest ih =>
    by_cases hd : op.done = true
    · simp [pollLoop, hd] at h
    · cases he : r.error with
      | some e0 =>
        simp [pollLoop, hd, he] at h
        exact ⟨errText e0, h.symm⟩
      | none =>
        simp [pollLoop, hd, he] at h
        exact ih r h

/-- Case inventory of the straight-line code after the poll loop: a blob URL,
or one of the three error families with their exact messages. -/
theorem afterPoll_kinds (key : String) (f : String → FetchResponse) (op : Operation) :
    (∃ url, afterPoll key f op = Except.ok url) ∨
    (∃ m, afterPoll key f op = Except.error (GenFailure.remoteOperationError m)) ∨
    (afterPoll key f op = Except.error (GenFailure.missingPayloadError "No video returned from the API.") ∨
     afterPoll key f op = Except.error (GenFailure.missingPayloadError "Video URI is missing.")) ∨
    (∃ st, afterPoll key f op = Except.error (GenFailure.networkError ("Failed to download video: " ++ st))) := by
  unfold afterPoll
  split
  · exact Or.inr (Or.inl ⟨_, rfl⟩)
  · split
    · exact Or.inr (Or.inr (Or.inl (Or.inl rfl)))
    · split
      · exact Or.inr (Or.inr (Or.inl (Or.inl rfl)))
      · exact Or.inr (Or.inr (Or.inl (Or.inl rfl)))
      · split
        · exact Or.inr (Or.inr (Or.inl (Or.inr rfl)))
        · split
          · exact Or.inr (Or.inr (Or.inl (Or.inr rfl)))
          · split
            · exact Or.inr (Or.inr (Or.inl (Or.inr rfl)))
            · dsimp only
              split
              · exact Or.inl ⟨_, rfl⟩
              · exact Or.inr (Or.inr (Or.inr ⟨_, rfl⟩))


/-- A map that fixes every element of a list leaves the list unchanged. -/
theorem map_fixed {α : Type} (f : α → α) (l : List α) (h : ∀ x ∈ l, f x = x) :
    l.map f = l := by
  rw [List.map_congr_left h]; exact List.map_id' l

/-- The success resolution rewrites no message id. -/
theorem resolveComplete_map_id (agentId url : String) (msgs : List Message) :
    (resolveComplete agentId url msgs).map Message.id = msgs.map Message.id := by
  unfold resolveComplete
  rw [List.map_map]
  apply List.map_congr_left
  intro m _
  by_cases h : m.id = agentId <;> simp [h]

/-- The failure resolution rewrites no message id. -/
theorem resolveError_map_id (agentId emsg : String) (msgs : List Message) :
    (resolveError agentId emsg msgs).map Message.id = msgs.map Message.id := by
  unfold resolveError
  rw [List.map_map]
  apply List.map_congr_left
  intro m _
  by_cases h : m.id = agentId <;> simp [h]

/-! ## Claims -/

/-- C5: the authenticated download URL appends the API-key credential as a
query parameter in both shapes: with `&key=` when the base URI already
contains a `?`, and with `?key=` otherwise. -/
theorem c5_download_url_shapes (uri key : String) :
    (strIncludes uri "?" = true → mkDownloadUrl uri key = uri ++ "&key=" ++ key) ∧
    (strIncludes uri "?" = false → mkDownloadUrl uri key = uri ++ "?key=" ++ key) := by
  constructor <;> intro h <;> simp [mkDownloadUrl, h]

/-- Witness for C5 at both URI shapes. -/
theorem c5_download_url_shapes_witness :
    (strIncludes "https://v.example/file?alt=media" "?" = true ∧
      mkDownloadUrl "https://v.example/file?alt=media" "KEY" =
        "https://v.example/file?alt=media" ++ "&key=" ++ "KEY") ∧
    (strIncludes "https://v.example/file" "?" = false ∧
      mkDownloadUrl "https://v.example/file" "KEY" =
        "https://v.example/file" ++ "?key=" ++ "KEY") :=
  ⟨⟨by decide, (c5_download_url_shapes "https://v.example/file?alt=media" "KEY").1 (by decide)⟩,
   ⟨by decide, (c5_download_url_shapes "https://v.example/file" "KEY").2 (by decide)⟩⟩

/-- C6: a request without an image composes a vendor payload whose image field
is absent from the object literal (`none`, not `some none` which would be a
null value); with an image the payload is the same except for the added image
field. -/
theorem c6_payload_image_field (request : GenerationRequest) :
    (request.image = none → (composePayload request).image = none) ∧
    (∀ img, request.image = some img →
      composePayload request =
        { composePayload { request with image := none } with
          image := some (some { imageBytes := img.data, mimeType := img.mimeType }) }) := by
  constructor
  · intro h
    simp [composePayload, h]
  · intro img h
    simp [composePayload, h]

/-- Witness for C6: the image field is absent for the text-only sample request,
and the image-bearing sample request differs from its imageless variant only in
the image field. -/
theorem c6_payload_image_field_witness :
    (composePayload sampleRequestNoImage).image = none ∧
    composePayload sampleRequestWithImage =
      { composePayload { sampleRequestWithImage with image := none } with
        image := some (some { imageBytes := "QUJD", mimeType := "image/png" }) } :=
  ⟨(c6_payload_image_field sampleRequestNoImage).1 rfl,
   (c6_payload_image_field sampleRequestWithImage).2 { data := "QUJD", mimeType := "image/png" } rfl⟩

/-- C4: the poll loop hands back only operations whose done flag is set (its
other exit is a remote operation error); when the handle is already done it
performs no wait and no status call; and on every iteration with a pending
handle it suspends 5000 ms, issues the status call with the last handle, and
continues with the response as the new handle. -/
theorem c4_poll_loop_discipline (op : Operation) (rs : List Operation) :
    (∀ o, pollLoop op rs = some (Except.ok o) → o.done = true) ∧
    (∀ e, pollLoop op rs = some (Except.error e) →
      ∃ m, e = GenFailure.remoteOperationError m) ∧
    (op.done = true → pollLoop op rs = some (Except.ok op) ∧ pollEvents op rs = []) ∧
    (op.done = false → ∀ r rest, rs = r :: rest → r.error = none →
      pollLoop op rs = pollLoop r rest ∧
      pollEvents op rs = PollEvent.wait 5000 :: PollEvent.statusCall op :: pollEvents r rest) := by
  refine ⟨fun o h => pollLoop_ok_done op rs o h,
          fun e h => pollLoop_error_shape op rs e h, ?_, ?_⟩
  · intro hd
    cases rs <;> constructor <;> simp [pollLoop, pollEvents, hd]
  · intro hd r rest hrs he
    subst hrs
    constructor <;> simp [pollLoop, pollEvents, hd, he]

/-- Witness for C4: one pending iteration consumes the first response and
records the suspension and the status call with the pending handle. -/
theorem c4_poll_loop_discipline_witness :
    pollLoop opPending [opDone1] = pollLoop opDone1 [] ∧
    pollEvents opPending [opDone1] =
      PollEvent.wait 5000 :: PollEvent.statusCall opPending :: pollEvents opDone1 [] :=
  (c4_poll_loop_discipline opPending [opDone1]).2.2.2 rfl opDone1 [] rfl rfl

/-- C2: when the loop reaches a status response that carries an error (every
earlier response being error-free and not done, the initial handle pending),
it fails with that error as a remote operation error and issues no status call
beyond it. -/
theorem c2_error_stops_polling (op : Operation) (rs1 : List Operation) (r : Operation)
    (rs2 : List Operation) (e : OperationError)
    (hop : op.done = false)
    (hpre : ∀ x ∈ rs1, x.error = none ∧ x.done = false)
    (herr : r.error = some e) :
    pollLoop op (rs1 ++ r :: rs2) =
      some (Except.error (GenFailure.remoteOperationError (errText e))) ∧
    statusCallCount op (rs1 ++ r :: rs2) = rs1.length + 1 := by
  induction rs1 generalizing op with
  | nil =>
    constructor <;> simp [pollLoop, statusCallCount, hop, herr]
  | cons y ys ih =>
    have hy := hpre y (by simp)
    have hys : ∀ x ∈ ys, x.error = none ∧ x.done = false :=
      fun x hx => hpre x (by simp [hx])
    have hrec := ih y hy.2 hys
    constructor
    · simpa [pollLoop, hop, hy.1] using hrec.1
    · have : statusCallCount op ((y :: ys) ++ r :: rs2) =
          1 + statusCallCount y (ys ++ r :: rs2) := by
        simp [statusCallCount, hop, hy.1]
      rw [this, hrec.2]
      simp
      omega

/-- Witness for C2: one clean poll, then an erroneous response; the loop fails
with that error and has issued exactly two status calls. -/
theorem c2_error_stops_polling_witness :
    pollLoop opPending ([opPending] ++ opErr :: [opDone1]) =
      some (Except.error (GenFailure.remoteOperationError (errText { message := some "boom" }))) ∧
    statusCallCount opPending ([opPending] ++ opErr :: [opDone1]) = [opPending].length + 1 :=
  c2_error_stops_polling opPending [opPending] opErr [opDone1] { message := some "boom" }
    rfl (by decide) rfl

/-- C3: when the operation completes without error but its generated-video
list is absent or empty, or the first result's remote URI is absent, the
client fails with a payload-missing error. -/
theorem c3_missing_payload (env : Env) (request : GenerationRequest) (key : String)
    (op : Operation)
    (hkey : env.apiKey = some key)
    (hpoll : pollLoop (env.generate (composePayload request)) env.pollResponses =
      some (Except.ok op))
    (herr : op.error = none)
    (hmiss : op.response = none ∨
      (∃ resp, op.response = some resp ∧
        (resp.generatedVideos = none ∨ resp.generatedVideos = some [])) ∨
      (∃ resp gv rest, op.response = some resp ∧
        resp.generatedVideos = some (gv :: rest) ∧
        (gv.video = none ∨ gv.video = some { uri := none }))) :
    ∃ m, generateVideo env request = some (Except.error (GenFailure.missingPayloadError m)) := by
  rcases hmiss with hresp | ⟨resp, hresp, hgv | hgv⟩ | ⟨resp, gv, rest, hresp, hgv, hv | hv⟩
  · exact ⟨"No video returned from the API.",
      by simp [generateVideo, hkey, hpoll, afterPoll, herr, hresp]⟩
  · exact ⟨"No video returned from the API.",
      by simp [generateVideo, hkey, hpoll, afterPoll, herr, hresp, hgv]⟩
  · exact ⟨"No video returned from the API.",
      by simp [generateVideo, hkey, hpoll, afterPoll, herr, hresp, hgv]⟩
  · exact ⟨"Video URI is missing.",
      by simp [generateVideo, hkey, hpoll, afterPoll, herr, hresp, hgv, hv]⟩
  · exact ⟨"Video URI is missing.",
      by simp [generateVideo, hkey, hpoll, afterPoll, herr, hresp, hgv, hv]⟩

/-- Witness for C3: a completed operation with an empty result list makes the
client fail with a payload-missing error. -/
theorem c3_missing_payload_witness :
    ∃ m, generateVideo envEmptyPayload sampleRequestNoImage =
      some (Except.error (GenFailure.missingPayloadError m)) :=
  c3_missing_payload envEmptyPayload sampleRequestNoImage "KEY" opDoneEmpty rfl rfl rfl
    (Or.inr (Or.inl ⟨{ generatedVideos := some [] }, rfl, Or.inr rfl⟩))

/-- C1: whenever the client settles, it either returns a blob object URL or
fails with one of the four recognized kinds, each with the message of its
throw site: the fixed credential message, a vendor-reported operation error,
one of the two payload-missing messages, or a download failure carrying the
HTTP status text. -/
theorem c1_result_kinds (env : Env) (request : GenerationRequest)
    (r : Except GenFailure String)
    (h : generateVideo env request = some r) :
    (∃ url, r = Except.ok url) ∨
    (r = Except.error (GenFailure.authError "API Key not found. Please select a key.")) ∨
    (∃ m, r = Except.error (GenFailure.remoteOperationError m)) ∨
    (r = Except.error (GenFailure.missingPayloadError "No video returned from the API.") ∨
     r = Except.error (GenFailure.missingPayloadError "Video URI is missing.")) ∨
    (∃ st, r = Except.error (GenFailure.networkError ("Failed to download video: " ++ st))) := by
  unfold generateVideo at h
  cases hkey : env.apiKey with
  | none =>
    rw [hkey] at h
    cases h
    exact Or.inr (Or.inl rfl)
  | some key =>
    rw [hkey] at h
    cases hpoll : pollLoop (env.generate (composePayload request)) env.pollResponses with
    | none => rw [hpoll] at h; cases h
    | some pr =>
      rw [hpoll] at h
      cases pr with
      | error e =>
        cases h
        obtain ⟨m, rfl⟩ := pollLoop_error_shape _ _ _ hpoll
        exact Or.inr (Or.inr (Or.inl ⟨m, rfl⟩))
      | ok op =>
        cases h
        rcases afterPoll_kinds key env.fetchResponse op with
          ⟨url, hu⟩ | ⟨m, hm⟩ | hmp | ⟨st, hs⟩
        · exact Or.inl ⟨url, hu⟩
        · exact Or.inr (Or.inr (Or.inl ⟨m, hm⟩))
        · exact Or.inr (Or.inr (Or.inr (Or.inl hmp)))
        · exact Or.inr (Or.inr (Or.inr (Or.inr ⟨st, hs⟩)))

/-- Witness for C1 on the end-to-end scenario environment: the settled result
is the blob URL of the downloaded body. -/
theorem c1_result_kinds_witness :
    (∃ url, (Except.ok "blob:abc" : Except GenFailure String) = Except.ok url) ∨
    ((Except.ok "blob:abc" : Except GenFailure String) =
      Except.error (GenFailure.authError "API Key not found. Please select a key.")) ∨
    (∃ m, (Except.ok "blob:abc" : Except GenFailure String) =
      Except.error (GenFailure.remoteOperationError m)) ∨
    ((Except.ok "blob:abc" : Except GenFailure String) =
      Except.error (GenFailure.missingPayloadError "No video returned from the API.") ∨
     (Except.ok "blob:abc" : Except GenFailure String) =
      Except.error (GenFailure.missingPayloadError "Video URI is missing.")) ∨
    (∃ st, (Except.ok "blob:abc" : Except GenFailure String) =
      Except.error (GenFailure.networkError ("Failed to download video: " ++ st))) :=
  c1_result_kinds envHappy sampleRequestNoImage (Except.ok "blob:abc") (by decide)

/-- C9: each resolution step preserves the length and order of the message
list, leaves every message whose id differs from the placeholder id unchanged
at its position, and rewrites a message at its position exactly when its id
matches. -/
theorem c9_resolution_frame (agentId url emsg : String) (msgs : List Message) :
    (resolveComplete agentId url msgs).length = msgs.length ∧
    (resolveError agentId emsg msgs).length = msgs.length ∧
    (∀ (i : Nat) (m : Message), msgs[i]? = some m → m.id ≠ agentId →
      (resolveComplete agentId url msgs)[i]? = some m ∧
      (resolveError agentId emsg msgs)[i]? = some m) ∧
    (∀ (i : Nat) (m : Message), msgs[i]? = some m → m.id = agentId →
      (resolveComplete agentId url msgs)[i]? =
        some { m with status := some Status.complete
                      text := some "Here is your generated video!"
                      videoUrl := some url } ∧
      (resolveError agentId emsg msgs)[i]? =
        some { m with status := some Status.error
                      error := some (displayedError emsg) }) := by
  refine ⟨by simp [resolveComplete], by simp [resolveError], ?_, ?_⟩
  · intro i m hm hid
    constructor <;>
      simp [resolveComplete, resolveError, List.getElem?_map, hm, hid]
  · intro i m hm hid
    constructor <;>
      simp [resolveComplete, resolveError, List.getElem?_map, hm, hid]

/-- Witness for C9: resolving the placeholder of one submission leaves the
welcome message (position 0) untouched and rewrites only the placeholder
(position 2). -/
theorem c9_resolution_frame_witness :
    (resolveComplete "6" "blob:v" [welcomeMessage, mkUserMessage 5 "hi" none, mkAgentMessage 5])[0]? =
      some welcomeMessage ∧
    (resolveError "6" "oops" [welcomeMessage, mkUserMessage 5 "hi" none, mkAgentMessage 5])[0]? =
      some welcomeMessage :=
  (c9_resolution_frame "6" "blob:v" "oops"
      [welcomeMessage, mkUserMessage 5 "hi" none, mkAgentMessage 5]).2.2.1 0
    welcomeMessage rfl (by decide)

/-- C7: with the key set and a fresh placeholder id, the agent message created
on submission starts generating; the handler's resolution leaves every earlier
message and the submission's user message in place and rewrites the placeholder
exactly once — to complete with the video URL, or to error with the error
message; and no session step ever removes a message from the list. -/
theorem c7_agent_message_lifecycle (st : AppState) (now : Nat) (text : String)
    (imageBase64 : Option String) (url : String) (e : GenFailure)
    (hkey : st.apiKeySet = true)
    (hfresh : toString (now + 1) ∉ st.messages.map Message.id)
    (hids : toString now ≠ toString (now + 1)) :
    (mkAgentMessage now).status = some Status.generating ∧
    handleSendMessage st now text imageBase64 (Except.ok url) =
      { messages := st.messages ++ [mkUserMessage now text imageBase64,
          { mkAgentMessage now with
            status := some Status.complete
            text := some "Here is your generated video!"
            videoUrl := some url }]
        apiKeySet := st.apiKeySet
        isProcessing := false } ∧
    handleSendMessage st now text imageBase64 (Except.error e) =
      { messages := st.messages ++ [mkUserMessage now text imageBase64,
          { mkAgentMessage now with
            status := some Status.error
            error := some (displayedError (failureMessage e)) }]
        apiKeySet := if shouldResetKey (failureMessage e) then false else st.apiKeySet
        isProcessing := false } ∧
    (∀ s s', Step s s' → s.messages.map Message.id <+: s'.messages.map Message.id) := by
  have hfix : ∀ m ∈ st.messages, m.id ≠ toString (now + 1) := by
    intro m hm hc
    exact hfresh (hc ▸ List.mem_map_of_mem Message.id hm)
  have hres : resolveComplete (toString (now + 1)) url
      (st.messages ++ [mkUserMessage now text imageBase64, mkAgentMessage now]) =
      st.messages ++ [mkUserMessage now text imageBase64,
        { mkAgentMessage now with
          status := some Status.complete
          text := some "Here is your generated video!"
          videoUrl := some url }] := by
    unfold resolveComplete
    rw [List.map_append]
    congr 1
    · exact map_fixed _ _ (fun m hm => if_neg (hfix m hm))
    · simp [mkUserMessage, mkAgentMessage, hids]
  have hrese : resolveError (toString (now + 1)) (failureMessage e)
      (st.messages ++ [mkUserMessage now text imageBase64, mkAgentMessage now]) =
      st.messages ++ [mkUserMessage now text imageBase64,
        { mkAgentMessage now with
          status := some Status.error
          error := some (displayedError (failureMessage e)) }] := by
    unfold resolveError
    rw [List.map_append]
    congr 1
    · exact map_fixed _ _ (fun m hm => if_neg (hfix m hm))
    · simp [mkUserMessage, mkAgentMessage, hids]
  refine ⟨rfl, ?_, ?_, ?_⟩
  · unfold handleSendMessage
    simp only [hkey, Bool.true_eq_false, if_false]
    rw [hres]
  · unfold handleSendMessage
    simp only [hkey, Bool.true_eq_false, if_false]
    rw [hrese]
  · intro s s' hstep
    cases hstep with
    | submit now' text' img' s hk =>
      simp only [List.map_append]
      exact List.prefix_append _ _
    | resolveOk a u s =>
      simp only [resolveComplete_map_id]
      exact List.prefix_refl _
    | resolveErr a m s =>
      simp only [resolveError_map_id]
      exact List.prefix_refl _
    | setKey b s =>
      exact List.prefix_refl _

/-- Witness for C7: the success resolution of a first submission at time 5. -/
theorem c7_agent_message_lifecycle_witness :
    handleSendMessage readyState 5 "hi" none (Except.ok "blob:video") =
      { messages := readyState.messages ++ [mkUserMessage 5 "hi" none,
          { mkAgentMessage 5 with
            status := some Status.complete
            text := some "Here is your generated video!"
            videoUrl := some "blob:video" }]
        apiKeySet := readyState.apiKeySet
        isProcessing := false } :=
  (c7_agent_message_lifecycle readyState 5 "hi" none "blob:video"
    (GenFailure.networkError "Failed to download video: Not Found")
    rfl (by decide) (by decide)).2.1

/-- C8 counterexample: the error message "entity was not found" contains the
claim's pattern "entity was not found", yet the handler leaves the key-ready
flag set — the code matches the longer pattern "Requested entity was not
found". -/
theorem c8_counterexample :
    strIncludes "entity was not found" "entity was not found" = true ∧
    (handleSendMessage readyState 5 "a city" none
        (Except.error (GenFailure.remoteOperationError "entity was not found"))).apiKeySet = true :=
  ⟨by decide, by decide⟩

/-- C8 (amended): the missing/invalid-credential case is detected by a
message-pattern match on the returned error text — a message containing
"Requested entity was not found" or "API key not valid" — and exactly in that
case the handler resets the key-ready flag; for every other error message the
flag is unchanged. -/
theorem c8_key_reset_pattern (st : AppState) (now : Nat) (text : String)
    (imageBase64 : Option String) (e : GenFailure)
    (hkey : st.apiKeySet = true) :
    (handleSendMessage st now text imageBase64 (Except.error e)).apiKeySet = false ↔
      (strIncludes (failureMessage e) "Requested entity was not found" = true ∨
       strIncludes (failureMessage e) "API key not valid" = true) := by
  unfold handleSendMessage
  simp only [hkey, Bool.true_eq_false, if_false]
  by_cases hr : shouldResetKey (failureMessage e) = true
  · simp only [hr, if_true]
    have h2 : (strIncludes (failureMessage e) "Requested entity was not found" ||
        strIncludes (failureMessage e) "API key not valid") = true := by
      unfold shouldResetKey at hr
      exact (Bool.and_eq_true _ _ |>.mp hr).2
    simp only [eq_self_iff_true, true_iff]
    exact Bool.or_eq_true _ _ |>.mp h2
  · have hrf : shouldResetKey (failureMessage e) = false := by
      cases h : shouldResetKey (failureMessage e)
      · rfl
      · exact absurd h hr
    simp only [hrf, if_false, hkey]
    constructor
    · intro h
      cases h
    · intro hab
      exfalso
      unfold shouldResetKey at hrf
      by_cases hm : failureMessage e = ""
      · rw [hm] at hab
        rcases hab with ha | hb
        · exact absurd ha (by decide)
        · exact absurd hb (by decide)
      · have hne : (failureMessage e != "") = true := by
          simpa using hm
        rw [hne, Bool.true_and] at hrf
        rcases hab with ha | hb
        · rw [ha] at hrf
          simp at hrf
        · rw [hb] at hrf
          simp at hrf

/-- Witness for C8 (amended): a message containing "API key not valid" does
reset the key-ready flag. -/
theorem c8_key_reset_pattern_witness :
    (handleSendMessage readyState 7 "prompt" none
        (Except.error (GenFailure.remoteOperationError "API key not valid. Please pass a valid API key."))).apiKeySet = false :=
  (c8_key_reset_pattern readyState 7 "prompt" none
      (GenFailure.remoteOperationError "API key not valid. Please pass a valid API key.") rfl).mpr
    (Or.inr (by decide))

/-- C10: although the Message type declares a pending status, no reachable
session state stores a message whose status is pending: every stored message
has no status (user and welcome messages) or one of generating, complete,
error. -/
theorem c10_no_pending_status (st : AppState) (h : Reachable st) :
    ∀ m ∈ st.messages, m.status ≠ some Status.pending := by
  induction h with
  | init =>
    intro m hm
    have hw : m = welcomeMessage := by simpa [initialState] using hm
    rw [hw]
    simp [welcomeMessage]
  | step hr hstep ih =>
    cases hstep with
    | submit now text img s hk =>
      intro m hm
      simp only [List.mem_append, List.mem_cons, List.not_mem_nil, or_false] at hm
      rcases hm with hm | rfl | rfl
      · exact ih m hm
      · simp [mkUserMessage]
      · simp [mkAgentMessage]
    | resolveOk a u s =>
      intro m hm
      unfold resolveComplete at hm
      rcases List.mem_map.mp hm with ⟨x, hx, rfl⟩
      by_cases hid : x.id = a
      · simp [hid]
      · simp only [hid, if_false]
        exact ih x hx
    | resolveErr a em s =>
      intro m hm
      unfold resolveError at hm
      rcases List.mem_map.mp hm with ⟨x, hx, rfl⟩
      by_cases hid : x.id = a
      · simp [hid]
      · simp only [hid, if_false]
        exact ih x hx
    | setKey b s =>
      intro m hm
      exact ih m hm

/-- Witness for C10 at the mount state: the welcome message has no pending
status. -/
theorem c10_no_pending_status_witness :
    welcomeMessage.status ≠ some Status.pending :=
  c10_no_pending_status initialState Reachable.init welcomeMessage
    (by simp [initialState])
